import Mathlib

/-!
Shallow embedding of the vds-slice request pipeline (package `api`):
the error classifier `httpStatusCode` / `abortOnError`, the endpoint
handlers `Endpoint.metadata` and `Endpoint.makeDataRequest`, the
per-variant `execute` functions, `validateVerticalWindow`, and
`parseGetRequest`.  External collaborators that the Go code consumes
through interfaces (the engine handle, JSON decoding, struct
validation) are abstract function parameters; repository code that is
referenced but not part of the embedded package (the `core` token
parsers, the `cache` store, the request fingerprint) is modelled from
the spec and marked as such in its doc comment.
-/

namespace VdsSlice

/-- Byte sequences (`[]byte` in Go). -/
abbrev Bytes := List Nat

/-- Error kinds of package `core`: `*core.InvalidArgument`,
`*core.InternalError`, and the catch-all for any other `error` type
(the `default` arm of the `switch err.(type)`). -/
inductive CoreError where
  | invalidArgument (msg : String)
  | internalError (msg : String)
  | other (msg : String)
deriving DecidableEq, Repr

/-- Embeds `httpStatusCode` (part_000:16-25): `*core.InvalidArgument`
maps to 400, `*core.InternalError` to 500, anything else to 500. -/
def httpStatusCode (err : CoreError) : Nat :=
  match err with
  | .invalidArgument _ => 400
  | .internalError _ => 500
  | .other _ => 500

/-- Embeds `abortOnError` (part_000:45-53).  In Go the function aborts
the gin context with `(httpStatusCode err, err)` and returns `true`
when `err != nil`; here the abort effect is the returned pair and
`none` plays the role of the `false`/untouched-context outcome. -/
def abortOnError (err : Option CoreError) : Option (Nat × CoreError) :=
  match err with
  | none => none
  | some e => some (httpStatusCode e, e)

/-- A cache entry, `cache.NewCacheEntry(data, metadata)` with accessors
`Metadata()` and `Data()`.  Modelled from the spec: an immutable pair
of the metadata byte sequence and the ordered data blocks. -/
structure CacheEntry where
  metadata : Bytes
  data : List Bytes
deriving DecidableEq, Repr

/-- Modelled from the spec: the `cache.Cache` mapping fingerprint →
entry, as an association list keyed by the fingerprint string.  The
byte-budget eviction policy is not modelled; none of the embedded
operations depend on it. -/
def Cache := List (String × CacheEntry)
deriving instance DecidableEq, Repr for Cache

/-- Modelled from the spec: `Cache.Get` — lookup of a fingerprint, the
boolean `hit` of the Go API is `Option.isSome` here. -/
def Cache.get : Cache → String → Option CacheEntry
  | [], _ => none
  | (k, e) :: rest, key => if k = key then some e else Cache.get rest key

/-- Modelled from the spec: `Cache.Set` — unconditional
insert-or-overwrite of the entry at the given fingerprint. -/
def Cache.set (c : Cache) (key : String) (e : CacheEntry) : Cache :=
  (key, e) :: c.filter (fun p => p.1 ≠ key)

/-- Modelled from the spec: the `Connection` derived from a request's
credentials is consumed only through its `IsAuthorizedToRead`
capability check. -/
structure Connection where
  isAuthorizedToRead : Bool
deriving DecidableEq, Repr

/-- Operational steps performed inside a variant `execute` function, in
source order: the token / window validations and the calls on the
engine handle. -/
inductive ExecEvent where
  | validateDirection
  | validateCoordSystem
  | validateWindow
  | validateInterpolation
  | engineCall
deriving DecidableEq, Repr

/-- Operational steps of a data-request handler: acquiring and
releasing the engine dataset handle (`core.NewDSHandle` / deferred
`handle.Close()`), with the `execute` steps in between. -/
inductive Event where
  | openHandle
  | closeHandle
  | exec (e : ExecEvent)
deriving DecidableEq, Repr

/-- The engine dataset handle (`core.DSHandle`), an external
collaborator: each operation the embedded handlers invoke is an
abstract function returning bytes or an error. -/
structure DSHandle where
  getMetadata : Except CoreError Bytes
  getSliceMetadata : Int → Nat → List Int → Except CoreError Bytes
  getSlice : Int → Nat → List Int → Except CoreError Bytes
  getFenceMetadata : List (List Rat) → Except CoreError Bytes
  getFence : Nat → List (List Rat) → Nat → Option Rat → Except CoreError Bytes
  getAttributeMetadata : List (List Rat) → Except CoreError Bytes
  getAttributesAlongSurface :
    List (List Rat) → Rat → Rat → Rat → List String → Nat →
    Except CoreError (List Bytes)
  getAttributesBetweenSurfaces :
    List (List Rat) → List (List Rat) → Rat → List String → Nat →
    Except CoreError (List Bytes)

/-- A data request as `makeDataRequest` consumes it: the `DataRequest`
interface of the Go code, with `credentials()` split into its two
returned strings, `hash()` as the fingerprint computation, and the
variant `execute` instrumented with its `ExecEvent` steps. -/
structure DataRequest where
  vds : String
  sas : String
  hash : Except CoreError String
  execute : DSHandle → Except CoreError (List Bytes × Bytes) × List ExecEvent

/-- What an aborted or successful handler writes back: the abort pair
of `ctx.AbortWithError`, a multipart data response (`writeResponse`,
with the `cache-hit` context flag), or the single JSON document of the
metadata handler (`ctx.Data`). -/
inductive Response where
  | aborted (status : Nat) (err : CoreError)
  | okData (metadata : Bytes) (data : List Bytes) (cacheHit : Bool)
  | okJson (buffer : Bytes)
deriving DecidableEq, Repr

/-- The endpoint state (`Endpoint` struct): the connection factory and
the shared compute cache. -/
structure Endpoint where
  makeVdsConnection : String → String → Except CoreError Connection
  cache : Cache

/-- Embeds lines 109-122 of `makeDataRequest` (part_000): open the
dataset handle, run the variant's `execute`, on success store the
entry under the fingerprint and write the response; the deferred
`handle.Close()` runs on every path after a successful open, hence the
trailing `closeHandle` event on both exits. -/
def Endpoint.executeAndCache (e : Endpoint)
    (newDSHandle : Connection → Except CoreError DSHandle)
    (conn : Connection) (key : String) (r : DataRequest) :
    Response × Cache × List Event :=
  match newDSHandle conn with
  | .error err => (.aborted (httpStatusCode err) err, e.cache, [])
  | .ok handle =>
    match r.execute handle with
    | (.error err, evs) =>
        (.aborted (httpStatusCode err) err, e.cache,
         .openHandle :: evs.map .exec ++ [.closeHandle])
    | (.ok (data, metadata), evs) =>
        (.okData metadata data false,
         e.cache.set key ⟨metadata, data⟩,
         .openHandle :: evs.map .exec ++ [.closeHandle])

/-- Embeds `Endpoint.makeDataRequest` (part_000:87-123): build the
connection from the request credentials, compute the fingerprint, and
serve from the cache only on a hit whose connection passes
`IsAuthorizedToRead`; otherwise fall through to
`Endpoint.executeAndCache`. -/
def Endpoint.makeDataRequest (e : Endpoint)
    (newDSHandle : Connection → Except CoreError DSHandle)
    (r : DataRequest) : Response × Cache × List Event :=
  match e.makeVdsConnection r.vds r.sas with
  | .error err => (.aborted (httpStatusCode err) err, e.cache, [])
  | .ok conn =>
    match r.hash with
    | .error err => (.aborted (httpStatusCode err) err, e.cache, [])
    | .ok key =>
      match e.cache.get key, conn.isAuthorizedToRead with
      | some entry, true =>
          (.okData entry.metadata entry.data true, e.cache, [])
      | some _, false => e.executeAndCache newDSHandle conn key r
      | none, _ => e.executeAndCache newDSHandle conn key r

/-- The metadata request: dataset locator and credential token. -/
structure MetadataRequest where
  vds : String
  sas : String
deriving DecidableEq, Repr

/-- Embeds `Endpoint.metadata` (part_000:66-85): connection, handle,
`GetMetadata`, single JSON response.  The cache is threaded through
untouched — the Go handler never mentions `e.Cache`. -/
def Endpoint.metadata (e : Endpoint)
    (newDSHandle : Connection → Except CoreError DSHandle)
    (r : MetadataRequest) : Response × Cache :=
  match e.makeVdsConnection r.vds r.sas with
  | .error err => (.aborted (httpStatusCode err) err, e.cache)
  | .ok conn =>
    match newDSHandle conn with
    | .error err => (.aborted (httpStatusCode err) err, e.cache)
    | .ok handle =>
      match handle.getMetadata with
      | .error err => (.aborted (httpStatusCode err) err, e.cache)
      | .ok buffer => (.okJson buffer, e.cache)

/-- Modelled from the spec: `core.GetAxis` — the slice direction token
set (case already lowered by the caller, as in `SliceRequest.execute`),
tokens from §4.4 and the tests of the embedded package; an unknown
token is an `InvalidArgument` listing the valid options. -/
def GetAxis (direction : String) : Except CoreError Nat :=
  if direction = "i" ∨ direction = "inline" then .ok 0
  else if direction = "j" ∨ direction = "crossline" then .ok 1
  else if direction = "k" ∨ direction = "sample" then .ok 2
  else .error (.invalidArgument
    ("invalid direction \x27" ++ direction ++
     "\x27, valid options are: i, j, k, inline, crossline, sample"))

/-- Modelled from the spec: `core.GetInterpolationMethod` — the
interpolation token must belong to an enumerated set, anything else is
an `InvalidArgument`; the empty token selects the default method. -/
def GetInterpolationMethod (s : String) : Except CoreError Nat :=
  if s = "" ∨ s = "nearest" then .ok 0
  else if s = "linear" then .ok 1
  else if s = "cubic" then .ok 2
  else if s = "angular" then .ok 3
  else if s = "triangular" then .ok 4
  else .error (.invalidArgument
    ("invalid interpolation method \x27" ++ s ++ "\x27"))

/-- Embeds `strings.ToLower` as used on the ASCII direction and
coordinate-system tokens: lower-case every character. -/
def toLowerStr (s : String) : String := ⟨s.data.map Char.toLower⟩

/-- The slice request fields `makeDataRequest` and `execute` consume:
locator, credential token, direction string, line number and bounds. -/
structure SliceRequest where
  vds : String
  sas : String
  direction : String
  lineno : Int
  bounds : List Int
deriving DecidableEq, Repr

/-- Embeds `SliceRequest.execute` (part_000:125-149): resolve the axis
from the lower-cased direction token, then `GetSliceMetadata`, then
`GetSlice`, wrapping the single slice block as the data list. -/
def SliceRequest.execute (r : SliceRequest) (handle : DSHandle) :
    Except CoreError (List Bytes × Bytes) × List ExecEvent :=
  match GetAxis (toLowerStr r.direction) with
  | .error err => (.error err, [.validateDirection])
  | .ok axis =>
    match handle.getSliceMetadata r.lineno axis r.bounds with
    | .error err => (.error err, [.validateDirection, .engineCall])
    | .ok metadata =>
      match handle.getSlice r.lineno axis r.bounds with
      | .error err =>
          (.error err, [.validateDirection, .engineCall, .engineCall])
      | .ok res =>
          (.ok ([res], metadata),
           [.validateDirection, .engineCall, .engineCall])

/-- Modelled from the spec: the fingerprint of a slice request — the
collision-resistant digest is stood in for by the canonical,
credential-stripped serialization of the result-affecting fields; the
`sas` token is never an input. -/
def SliceRequest.fingerprint (r : SliceRequest) : String :=
  "slice|" ++ r.vds ++ "|" ++ r.direction ++ "|" ++ toString r.lineno ++
  "|" ++ toString r.bounds

/-- Packages a slice request as the `DataRequest` interface value that
`makeDataRequest` consumes (`credentials()` returns the locator and
token, `hash()` the fingerprint). -/
def SliceRequest.toDataRequest (r : SliceRequest) : DataRequest where
  vds := r.vds
  sas := r.sas
  hash := .ok r.fingerprint
  execute := r.execute

/-- Modelled from the spec: `core.GetCoordinateSystem` — the fence
coordinate-system token (case already lowered by the caller, as in
`FenceRequest.execute`) must belong to an enumerated set; an unknown
token is an `InvalidArgument`. -/
def GetCoordinateSystem (s : String) : Except CoreError Nat :=
  if s = "ij" then .ok 0
  else if s = "annotation" then .ok 1
  else if s = "cdp" then .ok 2
  else .error (.invalidArgument
    ("coordinate system not recognized: \x27" ++ s ++
     "\x27, valid options: ij, annotation, cdp"))

/-- The fence request fields the embedded code consumes: locator,
credential token, coordinate-system token, coordinate tuples,
interpolation token and optional fill value. -/
structure FenceRequest where
  vds : String
  sas : String
  coordinateSystem : String
  coordinates : List (List Rat)
  interpolation : String
  fillValue : Option Rat
deriving DecidableEq, Repr

/-- Embeds `FenceRequest.execute` (part_000:151-183): resolve the
coordinate system from the lower-cased token, then the interpolation
method, then `GetFenceMetadata` and `GetFence`, wrapping the single
fence block as the data list. -/
def FenceRequest.execute (r : FenceRequest) (handle : DSHandle) :
    Except CoreError (List Bytes × Bytes) × List ExecEvent :=
  match GetCoordinateSystem (toLowerStr r.coordinateSystem) with
  | .error err => (.error err, [.validateCoordSystem])
  | .ok coordinateSystem =>
    match GetInterpolationMethod r.interpolation with
    | .error err =>
        (.error err, [.validateCoordSystem, .validateInterpolation])
    | .ok interpolation =>
      match handle.getFenceMetadata r.coordinates with
      | .error err =>
          (.error err,
           [.validateCoordSystem, .validateInterpolation, .engineCall])
      | .ok metadata =>
        match handle.getFence coordinateSystem r.coordinates interpolation
            r.fillValue with
        | .error err =>
            (.error err,
             [.validateCoordSystem, .validateInterpolation, .engineCall,
              .engineCall])
        | .ok res =>
            (.ok ([res], metadata),
             [.validateCoordSystem, .validateInterpolation, .engineCall,
              .engineCall])

/-- Modelled from the spec: the fingerprint of a fence request —
canonical credential-stripped serialization of the result-affecting
fields (coordinate system, coordinate list, interpolation, fill
value); the `sas` token is never an input. -/
def FenceRequest.fingerprint (r : FenceRequest) : String :=
  "fence|" ++ r.vds ++ "|" ++ r.coordinateSystem ++ "|" ++
  toString r.coordinates ++ "|" ++ r.interpolation ++ "|" ++
  toString r.fillValue

/-- Packages a fence request as a `DataRequest`. -/
def FenceRequest.toDataRequest (r : FenceRequest) : DataRequest where
  vds := r.vds
  sas := r.sas
  hash := .ok r.fingerprint
  execute := r.execute

/-- The out-of-range message for `above` built by
`validateVerticalWindow` (part_000:190-195). -/
def aboveOutOfRangeMsg (v : Rat) : String :=
  "\x27above\x27 out of range! Must be within [0, 250], was " ++ toString v

/-- The out-of-range message for `below` built by
`validateVerticalWindow` (part_000:199-204). -/
def belowOutOfRangeMsg (v : Rat) : String :=
  "\x27below\x27 out of range! Must be within [0, 250], was " ++ toString v

/-- The out-of-range message for `stepsize` built by
`validateVerticalWindow` (part_000:208-212). -/
def stepsizeOutOfRangeMsg (v : Rat) : String :=
  "\x27stepsize\x27 out of range! Must be bigger than 0, was " ++ toString v

/-- Embeds `validateVerticalWindow` (part_000:185-216); the `float32`
parameters are modelled as rationals, on which the order comparisons
against the literal bounds 0 and 250 agree with the float ones for
every representable non-NaN value. -/
def validateVerticalWindow (above below stepSize : Rat) : Option CoreError :=
  if above < 0 ∨ 250 ≤ above then
    some (.invalidArgument (aboveOutOfRangeMsg above))
  else if below < 0 ∨ 250 ≤ below then
    some (.invalidArgument (belowOutOfRangeMsg below))
  else if stepSize < 0 then
    some (.invalidArgument (stepsizeOutOfRangeMsg stepSize))
  else none

/-- The attribute-along-surface request fields the embedded code
consumes; the regular surface is reduced to its value grid, the only
part the embedded call sites pass on. -/
structure AttributeAlongSurfaceRequest where
  vds : String
  sas : String
  surfaceValues : List (List Rat)
  above : Rat
  below : Rat
  stepsize : Rat
  attributes : List String
  interpolation : String
deriving DecidableEq, Repr

/-- Embeds `AttributeAlongSurfaceRequest.execute` (part_000:218-249):
vertical-window validation first, then the interpolation token, then
`GetAttributeMetadata` and `GetAttributesAlongSurface`. -/
def AttributeAlongSurfaceRequest.execute (r : AttributeAlongSurfaceRequest)
    (handle : DSHandle) :
    Except CoreError (List Bytes × Bytes) × List ExecEvent :=
  match validateVerticalWindow r.above r.below r.stepsize with
  | some err => (.error err, [.validateWindow])
  | none =>
    match GetInterpolationMethod r.interpolation with
    | .error err => (.error err, [.validateWindow, .validateInterpolation])
    | .ok interpolation =>
      match handle.getAttributeMetadata r.surfaceValues with
      | .error err =>
          (.error err,
           [.validateWindow, .validateInterpolation, .engineCall])
      | .ok metadata =>
        match handle.getAttributesAlongSurface r.surfaceValues r.above
            r.below r.stepsize r.attributes interpolation with
        | .error err =>
            (.error err,
             [.validateWindow, .validateInterpolation, .engineCall,
              .engineCall])
        | .ok data =>
            (.ok (data, metadata),
             [.validateWindow, .validateInterpolation, .engineCall,
              .engineCall])

/-- Modelled from the spec: the fingerprint of an
attribute-along-surface request — canonical credential-stripped
serialization of the result-affecting fields, the attribute names in
request order; the `sas` token is never an input. -/
def AttributeAlongSurfaceRequest.fingerprint
    (r : AttributeAlongSurfaceRequest) : String :=
  "attribute-along|" ++ r.vds ++ "|" ++ toString r.surfaceValues ++ "|" ++
  toString r.above ++ "|" ++ toString r.below ++ "|" ++
  toString r.stepsize ++ "|" ++ toString r.attributes ++ "|" ++
  r.interpolation

/-- Packages an attribute-along-surface request as a `DataRequest`. -/
def AttributeAlongSurfaceRequest.toDataRequest
    (r : AttributeAlongSurfaceRequest) : DataRequest where
  vds := r.vds
  sas := r.sas
  hash := .ok r.fingerprint
  execute := r.execute

/-- The attribute-between-surfaces request fields the embedded code
consumes; the primary and secondary regular surfaces are reduced to
their value grids, the only part the embedded call sites pass on. -/
structure AttributeBetweenSurfacesRequest where
  vds : String
  sas : String
  primaryValues : List (List Rat)
  secondaryValues : List (List Rat)
  stepsize : Rat
  attributes : List String
  interpolation : String
deriving DecidableEq, Repr

/-- Embeds `AttributeBetweenSurfacesRequest.execute`
(part_000:251-276): resolve the interpolation token, then
`GetAttributeMetadata` on the primary surface values, then
`GetAttributesBetweenSurfaces`. -/
def AttributeBetweenSurfacesRequest.execute
    (r : AttributeBetweenSurfacesRequest) (handle : DSHandle) :
    Except CoreError (List Bytes × Bytes) × List ExecEvent :=
  match GetInterpolationMethod r.interpolation with
  | .error err => (.error err, [.validateInterpolation])
  | .ok interpolation =>
    match handle.getAttributeMetadata r.primaryValues with
    | .error err => (.error err, [.validateInterpolation, .engineCall])
    | .ok metadata =>
      match handle.getAttributesBetweenSurfaces r.primaryValues
          r.secondaryValues r.stepsize r.attributes interpolation with
      | .error err =>
          (.error err,
           [.validateInterpolation, .engineCall, .engineCall])
      | .ok data =>
          (.ok (data, metadata),
           [.validateInterpolation, .engineCall, .engineCall])

/-- Modelled from the spec: the fingerprint of an
attribute-between-surfaces request — canonical credential-stripped
serialization of the result-affecting fields, the attribute names in
request order; the `sas` token is never an input. -/
def AttributeBetweenSurfacesRequest.fingerprint
    (r : AttributeBetweenSurfacesRequest) : String :=
  "attribute-between|" ++ r.vds ++ "|" ++ toString r.primaryValues ++
  "|" ++ toString r.secondaryValues ++ "|" ++ toString r.stepsize ++
  "|" ++ toString r.attributes ++ "|" ++ r.interpolation

/-- Packages an attribute-between-surfaces request as a
`DataRequest`. -/
def AttributeBetweenSurfacesRequest.toDataRequest
    (r : AttributeBetweenSurfacesRequest) : DataRequest where
  vds := r.vds
  sas := r.sas
  hash := .ok r.fingerprint
  execute := r.execute

/-- The missing-`query`-parameter message of `parseGetRequest`
(part_000:281-283). -/
def missingQueryMsg : String :=
  "GET request to specified endpoint requires a \x27query\x27 parameter"

/-- The malformed-JSON message of `parseGetRequest` (part_000:285-289),
parameterized by the decoder's own error text. -/
def malformedQueryMsg (jsonErr : String) : String :=
  "Please ensure that the supplied query is valid " ++
  "and conforms to the expected swagger Request specification: " ++ jsonErr

/-- Embeds `parseGetRequest` (part_000:278-297).  `queryParam` is the
`ctx.GetQuery("query")` pair (`none` = parameter absent); the JSON
decoder, struct validator and connection normalizer are the external
collaborators `json.Unmarshal`, `binding.Validator.ValidateStruct` and
`NormalizeConnection`, passed as abstract functions.  The Go function
returns only an `error`; `none` is its nil result. -/
def parseGetRequest {V : Type} (queryParam : Option String)
    (unmarshal : String → Except String V)
    (validateStruct : V → Option String)
    (normalizeConnection : V → Option CoreError) : Option CoreError :=
  match queryParam with
  | none => some (.invalidArgument missingQueryMsg)
  | some query =>
    match unmarshal query with
    | .error jsonErr => some (.invalidArgument (malformedQueryMsg jsonErr))
    | .ok v =>
      match validateStruct v with
      | some valErr => some (.invalidArgument valErr)
      | none => normalizeConnection v

/-- Overwriting the cache at a key makes the lookup at that key return
exactly the new entry. -/
theorem Cache.get_set_self (c : Cache) (key : String) (e : CacheEntry) :
    (c.set key e).get key = some e := by
  simp [Cache.set, Cache.get]

end VdsSlice

namespace VdsSlice

/-- C2: for every error aborted by a handler, the status is 400 exactly
when the error is an `InvalidArgument`, 500 for an `InternalError`, 500
for any other error type, and never anything else; `abortOnError`
aborts with exactly that status and leaves a nil error untouched. -/
theorem claim2_error_status_classification (e : CoreError) :
    (httpStatusCode e = 400 ↔ ∃ msg, e = CoreError.invalidArgument msg) ∧
    (∀ msg, e = CoreError.internalError msg → httpStatusCode e = 500) ∧
    (∀ msg, e = CoreError.other msg → httpStatusCode e = 500) ∧
    (httpStatusCode e = 400 ∨ httpStatusCode e = 500) ∧
    abortOnError (some e) = some (httpStatusCode e, e) ∧
    abortOnError none = (none : Option (Nat × CoreError)) := by
  cases e <;> simp [httpStatusCode, abortOnError]

/-- Witness for C2 at the concrete error `InternalError "boom"`. -/
theorem claim2_error_status_classification_witness :
    httpStatusCode (CoreError.internalError "boom") = 500 :=
  (claim2_error_status_classification
    (CoreError.internalError "boom")).2.1 "boom" rfl

/-- C9: fingerprints ignore the credential token — replacing the `sas`
field of a data request of any of the four variants (slice, fence,
attribute-along-surface, attribute-between-surfaces) by any other
token leaves the fingerprint, and hence the `hash` the pipeline
consumes, unchanged. -/
theorem claim9_fingerprint_credential_free (r : SliceRequest)
    (f : FenceRequest) (a : AttributeAlongSurfaceRequest)
    (b : AttributeBetweenSurfacesRequest) (s t : String) :
    SliceRequest.fingerprint { r with sas := s } =
      SliceRequest.fingerprint { r with sas := t } ∧
    FenceRequest.fingerprint { f with sas := s } =
      FenceRequest.fingerprint { f with sas := t } ∧
    AttributeAlongSurfaceRequest.fingerprint { a with sas := s } =
      AttributeAlongSurfaceRequest.fingerprint { a with sas := t } ∧
    AttributeBetweenSurfacesRequest.fingerprint { b with sas := s } =
      AttributeBetweenSurfacesRequest.fingerprint { b with sas := t } ∧
    (SliceRequest.toDataRequest { r with sas := s }).hash =
      (SliceRequest.toDataRequest { r with sas := t }).hash ∧
    (FenceRequest.toDataRequest { f with sas := s }).hash =
      (FenceRequest.toDataRequest { f with sas := t }).hash ∧
    (AttributeAlongSurfaceRequest.toDataRequest { a with sas := s }).hash =
      (AttributeAlongSurfaceRequest.toDataRequest { a with sas := t }).hash ∧
    (AttributeBetweenSurfacesRequest.toDataRequest
        { b with sas := s }).hash =
      (AttributeBetweenSurfacesRequest.toDataRequest
        { b with sas := t }).hash := by
  refine ⟨rfl, rfl, rfl, rfl, rfl, rfl, rfl, rfl⟩

/-- C10: the metadata handler neither reads nor writes the compute
cache — its final cache is its initial cache on every path, and its
response is the same for any two endpoints that agree on the
connection factory but hold arbitrary caches. -/
theorem claim10_metadata_cache_frame (e : Endpoint)
    (nh : Connection → Except CoreError DSHandle) (r : MetadataRequest) :
    (e.metadata nh r).2 = e.cache ∧
    ∀ c : Cache,
      (Endpoint.metadata ⟨e.makeVdsConnection, c⟩ nh r).1 =
        (e.metadata nh r).1 := by
  constructor
  · unfold Endpoint.metadata
    split
    · rfl
    · split
      · rfl
      · split <;> rfl
  · intro c
    simp only [Endpoint.metadata]
    split
    · rfl
    · split
      · rfl
      · split <;> rfl

/-- A concrete engine handle used to evaluate the theorems on closed
inputs. -/
def sampleHandle : DSHandle where
  getMetadata := .ok [9]
  getSliceMetadata := fun _ _ _ => .ok [3]
  getSlice := fun _ _ _ => .ok [4]
  getFenceMetadata := fun _ => .ok [5]
  getFence := fun _ _ _ _ => .ok [6]
  getAttributeMetadata := fun _ => .ok [7]
  getAttributesAlongSurface := fun _ _ _ _ _ _ => .ok [[8]]
  getAttributesBetweenSurfaces := fun _ _ _ _ _ => .ok [[10]]

/-- A handle factory that always succeeds with `sampleHandle`. -/
def sampleNewDSHandle : Connection → Except CoreError DSHandle :=
  fun _ => .ok sampleHandle

/-- A concrete cached entry. -/
def sampleEntry : CacheEntry := ⟨[1], [[2]]⟩

/-- A concrete, well-formed slice request. -/
def sampleSlice : SliceRequest := ⟨"vds0", "sas0", "inline", 3, []⟩

/-- A slice request with an unknown direction token. -/
def unknownDirSlice : SliceRequest := ⟨"vds0", "sas0", "unknown", 0, []⟩

/-- An endpoint whose cache already holds `sampleSlice`'s fingerprint
and whose connections are authorized. -/
def hitEndpoint : Endpoint :=
  ⟨fun _ _ => .ok ⟨true⟩, [(sampleSlice.fingerprint, sampleEntry)]⟩

/-- An endpoint with an empty cache and authorized connections. -/
def missEndpoint : Endpoint := ⟨fun _ _ => .ok ⟨true⟩, []⟩

/-- An endpoint whose connection factory always fails. -/
def failEndpoint : Endpoint :=
  ⟨fun _ _ => .error (.internalError "no connection"), []⟩

/-- C1: on a cache hit the cached entry is disclosed exactly to an
authorized connection — authorized: the entry's metadata and blocks
come back verbatim, flagged served-from-cache, cache and trace
untouched; unauthorized: the handler behaves exactly as the
execute-and-cache path, so the hit is never disclosed. -/
theorem claim1_cache_hit_requires_authorization
    (e : Endpoint) (nh : Connection → Except CoreError DSHandle)
    (r : DataRequest) (conn : Connection) (key : String) (entry : CacheEntry)
    (hconn : e.makeVdsConnection r.vds r.sas = .ok conn)
    (hhash : r.hash = .ok key)
    (hhit : e.cache.get key = some entry) :
    (conn.isAuthorizedToRead = true →
      e.makeDataRequest nh r =
        (.okData entry.metadata entry.data true, e.cache, [])) ∧
    (conn.isAuthorizedToRead = false →
      e.makeDataRequest nh r = e.executeAndCache nh conn key r) := by
  constructor
  · intro hauth
    simp only [Endpoint.makeDataRequest, hconn, hhash, hhit, hauth]
  · intro hauth
    simp only [Endpoint.makeDataRequest, hconn, hhash, hhit, hauth]

/-- Witness for C1: the concrete hit endpoint with an authorized
connection serves the cached entry verbatim. -/
theorem claim1_cache_hit_requires_authorization_witness :
    hitEndpoint.makeDataRequest sampleNewDSHandle sampleSlice.toDataRequest =
      (.okData sampleEntry.metadata sampleEntry.data true,
       hitEndpoint.cache, []) :=
  (claim1_cache_hit_requires_authorization hitEndpoint sampleNewDSHandle
    sampleSlice.toDataRequest ⟨true⟩ sampleSlice.fingerprint sampleEntry
    rfl rfl (by simp [hitEndpoint, Cache.get])).1 rfl

/-- C3: when the execute path runs and the variant execution succeeds,
the cache entry at the fingerprint is unconditionally overwritten with
the computed pair, and the computed pair — not any prior cached
value — is what the response carries. -/
theorem claim3_success_overwrites_cache_and_returns_computed
    (e : Endpoint) (nh : Connection → Except CoreError DSHandle)
    (r : DataRequest) (conn : Connection) (key : String) (handle : DSHandle)
    (data : List Bytes) (metadata : Bytes) (evs : List ExecEvent)
    (hconn : e.makeVdsConnection r.vds r.sas = .ok conn)
    (hhash : r.hash = .ok key)
    (hmiss : e.cache.get key = none ∨ conn.isAuthorizedToRead = false)
    (hhandle : nh conn = .ok handle)
    (hexec : r.execute handle = (.ok (data, metadata), evs)) :
    e.makeDataRequest nh r =
      (.okData metadata data false, e.cache.set key ⟨metadata, data⟩,
       .openHandle :: evs.map Event.exec ++ [.closeHandle]) ∧
    ((e.makeDataRequest nh r).2.1).get key = some ⟨metadata, data⟩ := by
  have hmain : e.makeDataRequest nh r =
      (.okData metadata data false, e.cache.set key ⟨metadata, data⟩,
       .openHandle :: evs.map Event.exec ++ [.closeHandle]) := by
    rcases hmiss with hmiss | hmiss
    · simp only [Endpoint.makeDataRequest, Endpoint.executeAndCache,
        hconn, hhash, hmiss, hhandle, hexec]
    · cases hget : e.cache.get key with
      | none =>
        simp only [Endpoint.makeDataRequest, Endpoint.executeAndCache,
          hconn, hhash, hget, hhandle, hexec]
      | some entry =>
        simp only [Endpoint.makeDataRequest, Endpoint.executeAndCache,
          hconn, hhash, hget, hmiss, hhandle, hexec]
  refine ⟨hmain, ?_⟩
  rw [hmain]
  exact Cache.get_set_self e.cache key ⟨metadata, data⟩

/-- Witness for C3: the concrete miss endpoint executes the slice and
stores the computed entry under the fingerprint. -/
theorem claim3_success_overwrites_cache_and_returns_computed_witness :
    missEndpoint.makeDataRequest sampleNewDSHandle sampleSlice.toDataRequest =
      (.okData [3] [[4]] false,
       missEndpoint.cache.set sampleSlice.fingerprint ⟨[3], [[4]]⟩,
       .openHandle ::
         [ExecEvent.validateDirection, .engineCall, .engineCall].map
           Event.exec ++ [.closeHandle]) :=
  (claim3_success_overwrites_cache_and_returns_computed missEndpoint
    sampleNewDSHandle sampleSlice.toDataRequest ⟨true⟩
    sampleSlice.fingerprint sampleHandle [[4]] [3]
    [ExecEvent.validateDirection, .engineCall, .engineCall]
    rfl rfl (Or.inl rfl) rfl rfl).1

/-- C4: whenever a data request aborts — connection creation,
fingerprinting, handle opening, or variant execution failed — the
returned cache is exactly the initial cache: no error path inserts or
overwrites an entry. -/
theorem claim4_failure_is_never_cached
    (e : Endpoint) (nh : Connection → Except CoreError DSHandle)
    (r : DataRequest) (status : Nat) (err : CoreError)
    (h : (e.makeDataRequest nh r).1 = .aborted status err) :
    (e.makeDataRequest nh r).2.1 = e.cache := by
  cases hc : e.makeVdsConnection r.vds r.sas with
  | error err0 => simp [Endpoint.makeDataRequest, hc]
  | ok conn =>
    cases hh : r.hash with
    | error err0 => simp [Endpoint.makeDataRequest, hc, hh]
    | ok key =>
      cases hget : e.cache.get key with
      | some entry =>
        cases hauth : conn.isAuthorizedToRead with
        | true =>
          simp [Endpoint.makeDataRequest, hc, hh, hget, hauth] at h
        | false =>
          cases hnd : nh conn with
          | error err0 =>
            simp [Endpoint.makeDataRequest, Endpoint.executeAndCache,
              hc, hh, hget, hauth, hnd]
          | ok handle =>
            rcases hre : r.execute handle with ⟨err0 | ⟨d, m⟩, evs⟩
            · simp [Endpoint.makeDataRequest, Endpoint.executeAndCache,
                hc, hh, hget, hauth, hnd, hre]
            · simp [Endpoint.makeDataRequest, Endpoint.executeAndCache,
                hc, hh, hget, hauth, hnd, hre] at h
      | none =>
        cases hnd : nh conn with
        | error err0 =>
          simp [Endpoint.makeDataRequest, Endpoint.executeAndCache,
            hc, hh, hget, hnd]
        | ok handle =>
          rcases hre : r.execute handle with ⟨err0 | ⟨d, m⟩, evs⟩
          · simp [Endpoint.makeDataRequest, Endpoint.executeAndCache,
              hc, hh, hget, hnd, hre]
          · simp [Endpoint.makeDataRequest, Endpoint.executeAndCache,
              hc, hh, hget, hnd, hre] at h

/-- Witness for C4: the endpoint whose connection factory fails aborts
and leaves its cache untouched. -/
theorem claim4_failure_is_never_cached_witness :
    (failEndpoint.makeDataRequest sampleNewDSHandle
      sampleSlice.toDataRequest).2.1 = failEndpoint.cache :=
  claim4_failure_is_never_cached failEndpoint sampleNewDSHandle
    sampleSlice.toDataRequest 500 (.internalError "no connection") rfl

/-- C7 (amended): the engine handle discipline that actually holds —
on every path the trace either never opens the handle (an abort before
acquisition, or a served-from-cache response) or opens it exactly once,
as its first step, and closes it as its last step, so it is released on
every exit and never leaked; the handle is, however, acquired before
variant-level validation, which runs inside `execute`. -/
theorem claim7_amended_handle_released_every_path
    (e : Endpoint) (nh : Connection → Except CoreError DSHandle)
    (r : DataRequest) :
    (e.makeDataRequest nh r).2.2 = [] ∨
    ∃ evs : List ExecEvent,
      (e.makeDataRequest nh r).2.2 =
        .openHandle :: evs.map Event.exec ++ [.closeHandle] := by
  cases hc : e.makeVdsConnection r.vds r.sas with
  | error err0 => left; simp [Endpoint.makeDataRequest, hc]
  | ok conn =>
    cases hh : r.hash with
    | error err0 => left; simp [Endpoint.makeDataRequest, hc, hh]
    | ok key =>
      have tail : (e.executeAndCache nh conn key r).2.2 = [] ∨
          ∃ evs : List ExecEvent,
            (e.executeAndCache nh conn key r).2.2 =
              .openHandle :: evs.map Event.exec ++ [.closeHandle] := by
        cases hnd : nh conn with
        | error err0 => left; simp [Endpoint.executeAndCache, hnd]
        | ok handle =>
          rcases hre : r.execute handle with ⟨err0 | ⟨d, m⟩, evs⟩
          · right
            exact ⟨evs, by simp [Endpoint.executeAndCache, hnd, hre]⟩
          · right
            exact ⟨evs, by simp [Endpoint.executeAndCache, hnd, hre]⟩
      cases hget : e.cache.get key with
      | some entry =>
        cases hauth : conn.isAuthorizedToRead with
        | true => left; simp [Endpoint.makeDataRequest, hc, hh, hget, hauth]
        | false =>
          have heq : e.makeDataRequest nh r =
              e.executeAndCache nh conn key r := by
            simp [Endpoint.makeDataRequest, hc, hh, hget, hauth]
          rw [heq]; exact tail
      | none =>
        have heq : e.makeDataRequest nh r =
            e.executeAndCache nh conn key r := by
          simp [Endpoint.makeDataRequest, hc, hh, hget]
        rw [heq]; exact tail

/-- Counterexample to C7 as stated: for the concrete slice request with
direction token "unknown", the handler opens the engine handle before
the direction validation runs — the trace opens the handle first and
only then performs the variant-level validation (and still closes the
handle on that failing path). -/
theorem claim7_counterexample_handle_open_before_validation :
    (missEndpoint.makeDataRequest sampleNewDSHandle
        unknownDirSlice.toDataRequest).2.2 =
      [.openHandle, .exec .validateDirection, .closeHandle] ∧
    List.indexOf Event.openHandle
        (missEndpoint.makeDataRequest sampleNewDSHandle
          unknownDirSlice.toDataRequest).2.2 <
      List.indexOf (Event.exec .validateDirection)
        (missEndpoint.makeDataRequest sampleNewDSHandle
          unknownDirSlice.toDataRequest).2.2 := by
  have h : (missEndpoint.makeDataRequest sampleNewDSHandle
      unknownDirSlice.toDataRequest).2.2 =
      [.openHandle, .exec .validateDirection, .closeHandle] := rfl
  refine ⟨h, ?_⟩
  rw [h]
  decide

/-- An attribute-along-surface request whose `above` parameter is -1. -/
def badAboveAttr : AttributeAlongSurfaceRequest :=
  ⟨"vds0", "sas0", [[20]], -1, 1, 1, ["samplevalue"], ""⟩

/-- C5: the vertical window validation fails exactly when `above` or
`below` leaves [0, 250) or `stepsize` is negative; the error is an
`InvalidArgument` naming the offending parameter and its bound; in
particular `above = -1` always yields the message containing
"'above' out of range"; and when validation fails the variant `execute`
returns that error with no engine call attempted — its trace holds only
the window validation step, for every handle. -/
theorem claim5_vertical_window_validation
    (above below stepsize : Rat) (r : AttributeAlongSurfaceRequest)
    (handle : DSHandle) (err : CoreError) :
    ((validateVerticalWindow above below stepsize).isSome ↔
      (above < 0 ∨ 250 ≤ above ∨ below < 0 ∨ 250 ≤ below ∨ stepsize < 0)) ∧
    (validateVerticalWindow r.above r.below r.stepsize = some err →
      r.execute handle = (.error err, [.validateWindow])) ∧
    ((above < 0 ∨ 250 ≤ above) →
      validateVerticalWindow above below stepsize =
        some (.invalidArgument (aboveOutOfRangeMsg above))) ∧
    (¬(above < 0 ∨ 250 ≤ above) → (below < 0 ∨ 250 ≤ below) →
      validateVerticalWindow above below stepsize =
        some (.invalidArgument (belowOutOfRangeMsg below))) ∧
    (¬(above < 0 ∨ 250 ≤ above) → ¬(below < 0 ∨ 250 ≤ below) →
      stepsize < 0 →
      validateVerticalWindow above below stepsize =
        some (.invalidArgument (stepsizeOutOfRangeMsg stepsize))) ∧
    validateVerticalWindow (-1) below stepsize =
      some (.invalidArgument (aboveOutOfRangeMsg (-1))) ∧
    ("\x27above\x27 out of range").data <+: (aboveOutOfRangeMsg (-1)).data := by
  refine ⟨?_, ?_, ?_, ?_, ?_, ?_, ?_⟩
  · unfold validateVerticalWindow
    split_ifs with h1 h2 h3
    · simp; tauto
    · simp; tauto
    · simp; tauto
    · simp
      push_neg at h1 h2 h3
      exact ⟨h1.1, h1.2, h2.1, h2.2, h3⟩
  · intro h
    simp only [AttributeAlongSurfaceRequest.execute, h]
  · intro h
    simp only [validateVerticalWindow, if_pos h]
  · intro h1 h2
    simp only [validateVerticalWindow, if_neg h1, if_pos h2]
  · intro h1 h2 h3
    simp only [validateVerticalWindow, if_neg h1, if_neg h2, if_pos h3]
  · have h : ((-1 : Rat) < 0 ∨ (250 : Rat) ≤ -1) := by norm_num
    simp only [validateVerticalWindow, if_pos h]
  · decide

/-- Witness for C5: the request with `above = -1` fails validation with
the "'above' out of range" error and performs no engine call. -/
theorem claim5_vertical_window_validation_witness :
    badAboveAttr.execute sampleHandle =
      (.error (.invalidArgument (aboveOutOfRangeMsg (-1))),
       [.validateWindow]) :=
  (claim5_vertical_window_validation (-1) 1 1 badAboveAttr sampleHandle
    (.invalidArgument (aboveOutOfRangeMsg (-1)))).2.1 (by decide)

/-- C6: a GET request with no `query` parameter fails with the fixed
missing-parameter `InvalidArgument`, whose message always differs from
the malformed-JSON message; the result is the same whatever the JSON
decoder would do, i.e. the failure precedes any decoding; a present but
malformed `query` yields the decoder-derived message instead. -/
theorem claim6_missing_query_distinct_error
    (V : Type) (unmarshal : String → Except String V)
    (validateStruct : V → Option String)
    (normalizeConnection : V → Option CoreError)
    (query jsonErr : String) :
    parseGetRequest none unmarshal validateStruct normalizeConnection =
      some (.invalidArgument missingQueryMsg) ∧
    (∀ u2 : String → Except String V,
      parseGetRequest none u2 validateStruct normalizeConnection =
        parseGetRequest none unmarshal validateStruct normalizeConnection) ∧
    missingQueryMsg ≠ malformedQueryMsg jsonErr ∧
    (unmarshal query = .error jsonErr →
      parseGetRequest (some query) unmarshal validateStruct
          normalizeConnection =
        some (.invalidArgument (malformedQueryMsg jsonErr))) := by
  refine ⟨rfl, fun _ => rfl, ?_, ?_⟩
  · intro h
    have hl := congrArg String.length h
    rw [malformedQueryMsg, String.length_append, String.length_append] at hl
    have h1 : missingQueryMsg.length = 62 := by decide
    have h2 : ("Please ensure that the supplied query is valid ").length = 47 :=
      by decide
    have h3 :
        ("and conforms to the expected swagger Request specification: ").length
          = 60 := by decide
    rw [h1, h2, h3] at hl
    omega
  · intro h
    simp only [parseGetRequest, h]

/-- Witness for C6: a concrete malformed query produces the
decoder-derived malformed-JSON message. -/
theorem claim6_missing_query_distinct_error_witness :
    @parseGetRequest Unit (some "help I am a duck")
      (fun _ => Except.error "bad") (fun _ => none) (fun _ => none) =
      some (.invalidArgument (malformedQueryMsg "bad")) :=
  (claim6_missing_query_distinct_error Unit (fun _ => Except.error "bad")
    (fun _ => none) (fun _ => none) "help I am a duck" "bad").2.2.2 rfl

/-- C8: the slice direction token is case-insensitive — two slice
requests equal except for the casing of the direction produce the same
`execute` result on every handle — and the direction "unknown" fails
with an `InvalidArgument` whose message contains
"invalid direction 'unknown'" and lists the valid options. -/
theorem claim8_direction_case_insensitive_unknown_rejected
    (r1 r2 r : SliceRequest) (handle : DSHandle) :
    (r1.vds = r2.vds → r1.sas = r2.sas → r1.lineno = r2.lineno →
     r1.bounds = r2.bounds →
     toLowerStr r1.direction = toLowerStr r2.direction →
     r1.execute handle = r2.execute handle) ∧
    (r.direction = "unknown" →
      (r.execute handle).1 = Except.error (.invalidArgument
        ("invalid direction \x27unknown\x27, valid options are: " ++
         "i, j, k, inline, crossline, sample")) ∧
      ("invalid direction \x27unknown\x27").data <+:
        ("invalid direction \x27unknown\x27, valid options are: " ++
         "i, j, k, inline, crossline, sample").data) := by
  constructor
  · intro hvds hsas hlineno hbounds hdir
    simp only [SliceRequest.execute, hdir, hlineno, hbounds]
  · intro h
    constructor
    · simp only [SliceRequest.execute, h]
      rfl
    · decide

/-- A slice request identical to `sampleSlice` with upper-cased
direction. -/
def upperSlice : SliceRequest := ⟨"vds0", "sas0", "INLINE", 3, []⟩

/-- Witness for C8: the upper-cased and lower-cased direction requests
yield the same result, and the concrete "unknown" request fails with
the expected message. -/
theorem claim8_direction_case_insensitive_unknown_rejected_witness :
    upperSlice.execute sampleHandle = sampleSlice.execute sampleHandle ∧
    (unknownDirSlice.execute sampleHandle).1 =
      Except.error (.invalidArgument
        ("invalid direction \x27unknown\x27, valid options are: " ++
         "i, j, k, inline, crossline, sample")) :=
  ⟨(claim8_direction_case_insensitive_unknown_rejected upperSlice
      sampleSlice unknownDirSlice sampleHandle).1 rfl rfl rfl rfl (by decide),
   ((claim8_direction_case_insensitive_unknown_rejected upperSlice
      sampleSlice unknownDirSlice sampleHandle).2 rfl).1⟩

end VdsSlice
